import Mathlib

/-!
Verification of the Auto Trader backend (src/main.py, src/schemas.py).

The repository is a FastAPI CRUD service over a MongoDB document store.
The handlers and schemas live under src/; the generic access layer
(database.py: `create_document`, `get_documents`) is imported by
src/main.py but its file is not part of src/, so it is modelled from the
spec (section 4.1), as noted on each such definition.

Modelling choices:
- BSON values are a small inductive `Value`; numbers (Python int/float)
  are rationals, which is exact for every comparison the code performs.
- A document is an association list `Doc` of field name to value, with
  Python-dict operations (`lookupKey`, `setKey`, `popKey`) matching
  dict.get / item assignment / dict.pop on unique-key dictionaries.
- The store is a map from collection name to a list of documents, plus
  an identifier counter and an optional failure state standing for
  StoreUnavailable / WriteError.
-/

namespace AutoTrader

/-- A calendar date, the value of a Python `datetime.date`. -/
structure DateV where
  year : Nat
  month : Nat
  day : Nat
deriving DecidableEq, Repr

/-- A stored (BSON-like) value. Python ints and floats are both modelled
as rationals, which is exact for the equality and order comparisons the
code performs. `vOid` is a store-assigned ObjectId. -/
inductive Value where
  | vNull
  | vStr (s : String)
  | vNum (q : ℚ)
  | vBool (b : Bool)
  | vDate (d : DateV)
  | vList (l : List Value)
  | vOid (n : Nat)

/-- A raw document: an association list from field names to values,
modelling a Python dict (keys unique, insertion-ordered). -/
abbrev Doc := List (String × Value)

/-- Dictionary lookup (`d.get(k)` / `d[k]`), first match. -/
def lookupKey {α : Type} : List (String × α) → String → Option α
  | [], _ => none
  | (k, v) :: rest, key => if key = k then some v else lookupKey rest key

/-- Python `d.pop(k)`: remove the entry for `k`. -/
def popKey (d : Doc) (k : String) : Doc :=
  d.filter fun kv => !(kv.1 == k)

/-- Python `d[k] = v`: replace in place if the key exists, else append. -/
def setKey (d : Doc) (k : String) (v : Value) : Doc :=
  if (lookupKey d k).isSome then
    d.map fun kv => if kv.1 = k then (k, v) else kv
  else
    d ++ [(k, v)]

/-- Python truthiness of a stored value (`if d.get("_id"):`). -/
def truthy : Value → Bool
  | .vNull => false
  | .vStr s => decide (s ≠ "")
  | .vNum q => decide (q ≠ 0)
  | .vBool b => b
  | .vDate _ => true
  | .vList l => !l.isEmpty
  | .vOid _ => true

/-- Decimal digit character for a value below ten. -/
def digitChar : Nat → Char
  | 0 => '0' | 1 => '1' | 2 => '2' | 3 => '3' | 4 => '4'
  | 5 => '5' | 6 => '6' | 7 => '7' | 8 => '8' | _ => '9'

/-- Numeric value of a decimal digit character. -/
def digitVal : Char → Nat
  | '0' => 0 | '1' => 1 | '2' => 2 | '3' => 3 | '4' => 4
  | '5' => 5 | '6' => 6 | '7' => 7 | '8' => 8 | _ => 9

/-- Decimal digit characters of a natural number, most significant first. -/
def natChars (n : Nat) : List Char :=
  if _h : n < 10 then [digitChar n]
  else natChars (n / 10) ++ [digitChar (n % 10)]
decreasing_by exact Nat.div_lt_self (by omega) (by omega)

/-- Modelled from the spec: the store-assigned identifier rendered as an
opaque string (`str(ObjectId)`); the store (pymongo/bson) is external, so
any injective rendering of the identifier counter is a faithful model. -/
def oidString (n : Nat) : String :=
  String.mk (natChars n)

/-- Python str(...) as the handlers apply it to the `_id` value popped from a
raw document; in this model the store only ever assigns `vOid` values. -/
def idStr : Value → String
  | .vOid n => oidString n
  | .vStr s => s
  | _ => ""

/-- Zero-padded two-digit field of `date.isoformat()`. -/
def pad2 (n : Nat) : String :=
  if n < 10 then "0" ++ String.mk (natChars n) else String.mk (natChars n)

/-- Zero-padded four-digit year of `date.isoformat()`. -/
def pad4 (n : Nat) : String :=
  let s := String.mk (natChars n)
  String.mk (List.replicate (4 - s.length) '0') ++ s

/-- Python `date.isoformat()`: `YYYY-MM-DD`. -/
def dateIso (d : DateV) : String :=
  pad4 d.year ++ "-" ++ pad2 d.month ++ "-" ++ pad2 d.day

/-- The body of the handlers' isoformat loop: a value that has
`isoformat` (only dates in this model) is replaced by its ISO-8601 text;
every other value is left unchanged. -/
def isoValue : Value → Value
  | .vDate d => .vStr (dateIso d)
  | v => v

/-- A constraint of a Mongo query document, as built by the handlers:
either an anchored case-insensitive regular expression
(the value written as a dict of dollar-regex `^pat$` with dollar-options
`i` in list_cars) or a numeric range (dollar-gte / dollar-lte). -/
inductive Constraint where
  | regexCI (pat : String)
  | range (lo hi : Option ℚ)
deriving DecidableEq, Repr

/-- A Mongo query document: field name to constraint. -/
abbrev Query := List (String × Constraint)

/-- Anchored pattern match of `^pat$` with the case-insensitive option,
character by character: `.` matches any character, any other character
matches itself ignoring letter case. This models Mongo's regex engine on
the fragment the handlers can produce, restricted to patterns made of
literal characters and the dot wildcard; other regex metacharacters are
outside the model's domain and theorems restrict to it. -/
def patMatch : List Char → List Char → Bool
  | [], [] => true
  | [], _ :: _ => false
  | _ :: _, [] => false
  | p :: ps, c :: cs =>
      (if p = '.' then true else p.toLower == c.toLower) && patMatch ps cs

/-- Characters that PCRE treats as metacharacters; the model's `patMatch`
is faithful only for patterns avoiding all of them except `.`. -/
def regexLiteralChar (c : Char) : Bool :=
  !(c ∈ ['.', '^', '$', '*', '+', '?', '(', ')', '[', ']', '\\', '|', '\x7b', '\x7d'])

/-- Evaluation of one field constraint against the (optional) stored
value of that field, per Mongo semantics for the operators the handlers
use: a regex only matches a present string field; a numeric range only
matches a present numeric field (array-valued fields never occur in the
filtered fields of this system's documents and are not matched). -/
def matchesConstraint : Constraint → Option Value → Bool
  | .regexCI pat, some (.vStr s) => patMatch pat.data s.data
  | .regexCI _, _ => false
  | .range lo hi, some (.vNum q) =>
      (lo.all fun l => decide (l ≤ q)) && (hi.all fun h => decide (q ≤ h))
  | .range _ _, _ => false

/-- A document matches a query when it satisfies every field constraint
(Mongo conjunction semantics). -/
def matchesQuery (qry : Query) (d : Doc) : Bool :=
  qry.all fun kc => matchesConstraint kc.2 (lookupKey d kc.1)

/-- The store: collections by name, the identifier counter, and an
optional failure state standing for StoreUnavailable / WriteError. -/
structure Store where
  colls : String → List Doc
  nextId : Nat
  failure : Option String

/-- Modelled from the spec (§4.1); database.py is not under src/.
`create_document(kind, record)` converts the record to a key-value
mapping (done by `recordToDoc` functions below at the call sites),
inserts it into the collection named by the kind tag with a fresh
store-assigned identifier, and returns that identifier as an opaque
string; on store failure it raises, modelled as `Except.error`, with no
partial write. -/
def create_document (kind : String) (record : Doc) (st : Store) :
    Except String (String × Store) :=
  match st.failure with
  | some msg => .error msg
  | none =>
      let oid := st.nextId
      let doc : Doc := ("_id", .vOid oid) :: record
      .ok (oidString oid,
        { colls := fun k => if k = kind then st.colls k ++ [doc] else st.colls k
          nextId := st.nextId + 1
          failure := none })

/-- Modelled from the spec (§4.1); database.py is not under src/.
`get_documents(kind, filter, limit)` queries the collection named by the
kind tag with the filter, capped at `limit` results, in store order, and
raises on store failure. The spec attributes output normalization to the
access layer, but in the code under src/ the handlers perform it
(list_cars.normalize, list_dealers.normalize, src/main.py lines 96-101
and 139-141), so the model returns raw documents to those handlers. -/
def get_documents (kind : String) (filter : Query) (limit : Nat) (st : Store) :
    Except String (List Doc) :=
  match st.failure with
  | some msg => .error msg
  | none => .ok (((st.colls kind).filter fun d => matchesQuery filter d).take limit)

/-! ### Schemas (src/schemas.py)

Each pydantic model becomes a record type for the validated data plus an
input type for the raw request body. In the input types, a field whose
pydantic default is `None` collapses absent and explicit-null (both
validate to `None`), so it is a single `Option`; a field with a non-null
default (`fuel_type`, `transmission`, `condition`, `rating`) must keep
absent (default applies) distinct from explicit null (field becomes
`None`), so it is an `Option` of an `Option`. -/

/-- Character-list prefix test (the meaning of `str.startswith`). -/
def startsWithChars : List Char → List Char → Bool
  | [], _ => true
  | _ :: _, [] => false
  | p :: ps, c :: cs => (p == c) && startsWithChars ps cs

/-- Modelled from the spec: pydantic's `HttpUrl` validator is an
external library; the spec only requires "photos must be well-formed
URLs", modelled as an http(s) scheme followed by a non-empty remainder. -/
def isHttpUrl (s : String) : Bool :=
  (startsWithChars "http://".data s.data && decide (7 < s.data.length))
    || (startsWithChars "https://".data s.data && decide (8 < s.data.length))

/-- Validated `Car` (src/schemas.py lines 30-49). -/
structure Car where
  make : String
  model : String
  year : Int
  price : ℚ
  mileage : Option Int
  fuel_type : Option String
  transmission : Option String
  body_style : Option String
  color : Option String
  location : Option String
  features : List String
  photos : List String
  dealer_id : Option String
  listed_on : Option DateV
  condition : Option String

/-- Raw request body for `POST /api/cars` before validation. -/
structure CarInput where
  make : Option String
  model : Option String
  year : Option Int
  price : Option ℚ
  mileage : Option Int
  fuel_type : Option (Option String)
  transmission : Option (Option String)
  body_style : Option String
  color : Option String
  location : Option String
  features : Option (List String)
  photos : Option (List String)
  dealer_id : Option String
  listed_on : Option DateV
  condition : Option (Option String)

/-- Resolution of an optional-with-default pydantic field: absent takes
the declared default, explicit null stays `None`, a value stays itself. -/
def resolveStr : Option (Option String) → String → Option String
  | none, d => some d
  | some v, _ => v

/-- Field `mileage: Optional[int] = Field(None, ge=0)`: the bound applies only
when a value is present. -/
def mileageOk : Option Int → Bool
  | none => true
  | some m => decide (0 ≤ m)

/-- Pydantic validation of a car request body (src/schemas.py lines
30-49): required fields present, `1900 ≤ year ≤ 2100`, `0 ≤ price`,
`0 ≤ mileage` when given, photos well-formed URLs; defaults applied. -/
def parseCar (b : CarInput) : Option Car :=
  match b.make, b.model, b.year, b.price with
  | some mk, some md, some y, some p =>
      if decide (1900 ≤ y) && decide (y ≤ 2100) && decide (0 ≤ p)
          && mileageOk b.mileage && (b.photos.getD []).all isHttpUrl then
        some { make := mk, model := md, year := y, price := p
               mileage := b.mileage
               fuel_type := resolveStr b.fuel_type "Gasoline"
               transmission := resolveStr b.transmission "Automatic"
               body_style := b.body_style, color := b.color, location := b.location
               features := b.features.getD [], photos := b.photos.getD []
               dealer_id := b.dealer_id, listed_on := b.listed_on
               condition := resolveStr b.condition "Used" }
      else none
  | _, _, _, _ => none

/-- Validated `Dealer` (src/schemas.py lines 18-28). -/
structure Dealer where
  name : String
  email : String
  phone : Option String
  city : Option String
  state : Option String
  rating : Option ℚ

/-- Raw request body for `POST /api/dealers` before validation. -/
structure DealerInput where
  name : Option String
  email : Option String
  phone : Option String
  city : Option String
  state : Option String
  rating : Option (Option ℚ)

/-- Pydantic validation of a dealer request body (src/schemas.py lines
18-28). `rating: Optional[float] = Field(4.5, ge=0, le=5)`: an absent
rating takes the default 4.5; an explicit null validates to `None`
(pydantic applies the `ge`/`le` bounds only to the float branch of the
`Optional`); a numeric value must lie within `[0, 5]`. -/
def parseDealer (b : DealerInput) : Option Dealer :=
  match b.name, b.email with
  | some nm, some em =>
      match b.rating with
      | none => some ⟨nm, em, b.phone, b.city, b.state, some ((9 : ℚ) / 2)⟩
      | some none => some ⟨nm, em, b.phone, b.city, b.state, none⟩
      | some (some q) =>
          if decide (0 ≤ q) && decide (q ≤ 5) then
            some ⟨nm, em, b.phone, b.city, b.state, some q⟩
          else none
  | _, _ => none

/-- Validated `Lead` (src/schemas.py lines 51-60). -/
structure Lead where
  car_id : String
  name : String
  email : String
  phone : Option String
  message : Option String

/-! ### Record serialization (the record-to-mapping step of
`create_document`, spec §4.1) -/

/-- One optional field of the stored mapping: present fields appear,
absent optional fields are omitted (spec §4.1: "optional fields as
absent-or-present, not as null placeholders"). -/
def optField (k : String) : Option Value → Doc
  | some v => [(k, v)]
  | none => []

/-- The stored mapping of a validated car. -/
def carToDoc (c : Car) : Doc :=
  [("make", .vStr c.make), ("model", .vStr c.model),
   ("year", .vNum (c.year : ℚ)), ("price", .vNum c.price)]
  ++ optField "mileage" (c.mileage.map fun m => .vNum (m : ℚ))
  ++ optField "fuel_type" (c.fuel_type.map .vStr)
  ++ optField "transmission" (c.transmission.map .vStr)
  ++ optField "body_style" (c.body_style.map .vStr)
  ++ optField "color" (c.color.map .vStr)
  ++ optField "location" (c.location.map .vStr)
  ++ [("features", .vList (c.features.map .vStr)),
      ("photos", .vList (c.photos.map .vStr))]
  ++ optField "dealer_id" (c.dealer_id.map .vStr)
  ++ optField "listed_on" (c.listed_on.map .vDate)
  ++ optField "condition" (c.condition.map .vStr)

/-- The stored mapping of a validated dealer. -/
def dealerToDoc (d : Dealer) : Doc :=
  [("name", .vStr d.name), ("email", .vStr d.email)]
  ++ optField "phone" (d.phone.map .vStr)
  ++ optField "city" (d.city.map .vStr)
  ++ optField "state" (d.state.map .vStr)
  ++ optField "rating" (d.rating.map .vNum)

/-- The stored mapping of a validated lead. -/
def leadToDoc (l : Lead) : Doc :=
  [("car_id", .vStr l.car_id), ("name", .vStr l.name), ("email", .vStr l.email)]
  ++ optField "phone" (l.phone.map .vStr)
  ++ optField "message" (l.message.map .vStr)

/-! ### Resource handlers (src/main.py) -/

/-- An HTTP outcome: a JSON payload, or an error status with a detail
string (`HTTPException(status_code=..., detail=...)`). -/
inductive Resp (α : Type) where
  | ok (a : α)
  | err (status : Nat) (detail : String)

/-- Handler `create_car` (src/main.py lines 69-75): insert, return the new id;
any store exception becomes HTTP 500 with the exception text as detail. -/
def create_car (car : Car) (st : Store) : Resp String × Store :=
  match create_document "car" (carToDoc car) st with
  | .ok (i, st') => (.ok i, st')
  | .error e => (.err 500 e, st)

/-- Handler `create_dealer` (src/main.py lines 126-132). -/
def create_dealer (d : Dealer) (st : Store) : Resp String × Store :=
  match create_document "dealer" (dealerToDoc d) st with
  | .ok (i, st') => (.ok i, st')
  | .error e => (.err 500 e, st)

/-- Handler `create_lead` (src/main.py lines 148-154). -/
def create_lead (l : Lead) (st : Store) : Resp String × Store :=
  match create_document "lead" (leadToDoc l) st with
  | .ok (i, st') => (.ok i, st')
  | .error e => (.err 500 e, st)

/-- The FastAPI validation boundary of `POST /api/cars`: a body that
fails schema validation is rejected with HTTP 422 before the handler
(and hence the store) is reached. -/
def create_car_endpoint (b : CarInput) (st : Store) : Resp String × Store :=
  match parseCar b with
  | some c => create_car c st
  | none => (.err 422 "Unprocessable Entity", st)

/-- The FastAPI validation boundary of `POST /api/dealers`. -/
def create_dealer_endpoint (b : DealerInput) (st : Store) : Resp String × Store :=
  match parseDealer b with
  | some d => create_dealer d st
  | none => (.err 422 "Unprocessable Entity", st)

/-- The query dict built by `list_cars` (src/main.py lines 80-91):
a truthy `make`/`model` parameter adds an anchored case-insensitive
regex on its field (`if make:` also drops the empty string); a price
bound is added whenever `min_price`/`max_price` `is not None`, both
bounds sharing the single `price` entry. -/
def buildCarQuery (make model : Option String) (min_price max_price : Option ℚ) : Query :=
  (match make with
   | some m => if m = "" then [] else [("make", Constraint.regexCI m)]
   | none => []) ++
  (match model with
   | some m => if m = "" then [] else [("model", Constraint.regexCI m)]
   | none => []) ++
  (if min_price.isSome || max_price.isSome then
    [("price", Constraint.range min_price max_price)]
  else [])

/-- First line of `list_cars.normalize` and all of `list_dealers.normalize`
(src/main.py lines 97 and 140): when `d.get("_id")` is truthy, pop the
store-internal `_id` and set `id` to its string form; otherwise set `id`
to `None` (leaving any falsy `_id` in place). -/
def idReplace (d : Doc) : Doc :=
  match lookupKey d "_id" with
  | some v =>
      if truthy v then setKey (popKey d "_id") "id" (.vStr (idStr v))
      else setKey d "id" .vNull
  | none => setKey d "id" .vNull

/-- Function `list_cars.normalize` (src/main.py lines 96-101): the id replacement
followed by the isoformat loop over every value of the dict. -/
def carNormalize (d : Doc) : Doc :=
  (idReplace d).map fun kv => (kv.1, isoValue kv.2)

/-- Function `list_dealers.normalize` (src/main.py lines 139-141): only the id
replacement; there is no isoformat loop on this path. -/
def dealerNormalize (d : Doc) : Doc :=
  idReplace d

/-- Handler `list_cars` (src/main.py lines 78-104). `limit` is a query parameter
defaulting to 20, modelled by an `Option` resolved exactly as FastAPI
does; the handler passes it to `get_documents` unchanged. -/
def list_cars (make model : Option String) (min_price max_price : Option ℚ)
    (limit : Option Nat) (st : Store) : Resp (List Doc) :=
  match get_documents "car" (buildCarQuery make model min_price max_price)
      (limit.getD 20) st with
  | .ok docs => .ok (docs.map carNormalize)
  | .error e => .err 500 e

/-- Handler `list_dealers` (src/main.py lines 135-144): empty filter, `limit`
defaulting to 50. -/
def list_dealers (limit : Option Nat) (st : Store) : Resp (List Doc) :=
  match get_documents "dealer" [] (limit.getD 50) st with
  | .ok docs => .ok (docs.map dealerNormalize)
  | .error e => .err 500 e

/-- The four sample cars of `seed_cars` (src/main.py lines 111-116). -/
def sampleCars : List Car :=
  [{ make := "Tesla", model := "Model 3", year := 2022, price := 32990
     mileage := some 12000, fuel_type := some "Electric"
     transmission := some "Automatic", body_style := some "Sedan"
     color := some "White", location := some "San Francisco, CA"
     features := ["Autopilot", "Heated Seats", "Panoramic Roof"]
     photos := ["https://images.unsplash.com/photo-1552519507-da3b142c6e3d"]
     dealer_id := none, listed_on := none, condition := some "Used" },
   { make := "BMW", model := "X5", year := 2020, price := 38950
     mileage := some 24000, fuel_type := some "Gasoline"
     transmission := some "Automatic", body_style := some "SUV"
     color := some "Black", location := some "New York, NY"
     features := ["xDrive AWD", "Leather", "HUD"]
     photos := ["https://images.unsplash.com/photo-1549924231-f129b911e442"]
     dealer_id := none, listed_on := none, condition := some "Used" },
   { make := "Toyota", model := "Camry", year := 2019, price := 18990
     mileage := some 36000, fuel_type := some "Hybrid"
     transmission := some "Automatic", body_style := some "Sedan"
     color := some "Blue", location := some "Austin, TX"
     features := ["Adaptive Cruise", "Lane Assist"]
     photos := ["https://images.unsplash.com/photo-1503376780353-7e6692767b70"]
     dealer_id := none, listed_on := none, condition := some "Used" },
   { make := "Audi", model := "A4", year := 2021, price := 29950
     mileage := some 18000, fuel_type := some "Gasoline"
     transmission := some "Automatic", body_style := some "Sedan"
     color := some "Gray", location := some "Seattle, WA"
     features := ["Quattro", "Virtual Cockpit"]
     photos := ["https://images.unsplash.com/photo-1511919884226-fd3cad34687c"]
     dealer_id := none, listed_on := none, condition := some "Used" }]

/-- The insertion loop of `seed_cars`: one `create_document` per sample,
collecting the returned ids; a store exception aborts the loop (inserts
already made persist, as in the Python loop). -/
def seedLoop : List Car → Store → Except String (List String) × Store
  | [], st => (.ok [], st)
  | c :: cs, st =>
      match create_document "car" (carToDoc c) st with
      | .error e => (.error e, st)
      | .ok (i, st') =>
          match seedLoop cs st' with
          | (.error e, st'') => (.error e, st'')
          | (.ok ids, st'') => (.ok (i :: ids), st'')

/-- Handler `seed_cars` (src/main.py lines 107-122): insert the four samples and
return their ids as `inserted` together with `count = len(inserted)`. -/
def seed_cars (st : Store) : Resp (List String × Nat) × Store :=
  match seedLoop sampleCars st with
  | (.ok ids, st') => (.ok (ids, ids.length), st')
  | (.error e, st') => (.err 500 e, st')

/-- The schema constraints of src/schemas.py lines 30-49 on an
already-constructed car record (the sense in which a `Car` is valid). -/
def validateCar (c : Car) : Bool :=
  decide (1900 ≤ c.year) && decide (c.year ≤ 2100) && decide (0 ≤ c.price)
    && mileageOk c.mileage && c.photos.all isHttpUrl

/-- Stated from the spec's words for claim C2 (the contract "matched
case-insensitively and as a full-string match"): case-insensitive
full-string equality, to be compared with the regex filter the code
builds. -/
def specCiEq (a b : String) : Bool :=
  a.data.map Char.toLower == b.data.map Char.toLower

/-- Map over the values of a document, keeping the keys (the shape of
the handlers' isoformat loop). -/
def mapVals (f : Value → Value) (d : Doc) : Doc :=
  d.map fun kv => (kv.1, f kv.2)

/-! ### Association-list lemmas -/

theorem lookupKey_append {α : Type} (l₁ l₂ : List (String × α)) (k : String) :
    lookupKey (l₁ ++ l₂) k = (lookupKey l₁ k).or (lookupKey l₂ k) := by
  induction l₁ with
  | nil => rfl
  | cons kv rest ih =>
      by_cases h : k = kv.1
      · simp [lookupKey, h]
      · simp [lookupKey, h, ih]

theorem lookupKey_mapVals (f : Value → Value) (d : Doc) (k : String) :
    lookupKey (mapVals f d) k = (lookupKey d k).map f := by
  induction d with
  | nil => rfl
  | cons kv rest ih =>
      by_cases h : k = kv.1
      · simp [lookupKey, mapVals, h]
      · simp [lookupKey, mapVals, h] at ih ⊢
        exact ih

theorem popKey_of_absent {d : Doc} {k : String} (h : lookupKey d k = none) :
    popKey d k = d := by
  induction d with
  | nil => rfl
  | cons kv rest ih =>
      rw [lookupKey] at h
      split at h
      · exact absurd h (by simp)
      · rename_i hne
        have : (kv.1 == k) = false := by
          simp only [beq_eq_false_iff_ne]
          exact fun he => hne he.symm
        simp [popKey, this] at ih ⊢
        exact ih h

theorem lookupKey_popKey_self (d : Doc) (k : String) :
    lookupKey (popKey d k) k = none := by
  induction d with
  | nil => rfl
  | cons kv rest ih =>
      by_cases h : kv.1 = k
      · simpa [popKey, h] using ih
      · have hb : (kv.1 == k) = false := by simpa using h
        have hk : ¬ k = kv.1 := fun he => h he.symm
        simp [popKey, hb, lookupKey, hk] at ih ⊢
        exact ih

theorem lookupKey_popKey_ne (d : Doc) {k k' : String} (h : k' ≠ k) :
    lookupKey (popKey d k) k' = lookupKey d k' := by
  induction d with
  | nil => rfl
  | cons kv rest ih =>
      by_cases hh : kv.1 = k
      · simp [popKey, hh, lookupKey, h] at ih ⊢
        exact ih
      · have hb : (kv.1 == k) = false := by simpa using hh
        by_cases hk : k' = kv.1
        · simp [popKey, hb, lookupKey, hk]
        · simp [popKey, hb, lookupKey, hk] at ih ⊢
          exact ih

theorem setKey_of_absent {d : Doc} {k : String} (h : lookupKey d k = none)
    (v : Value) : setKey d k v = d ++ [(k, v)] := by
  simp [setKey, h]

theorem lookupKey_optField (k k' : String) (ov : Option Value) :
    lookupKey (optField k' ov) k = if k = k' then ov else none := by
  cases ov with
  | none => simp [optField, lookupKey]
  | some v => simp [optField, lookupKey]

theorem matchesQuery_append (q₁ q₂ : Query) (d : Doc) :
    matchesQuery (q₁ ++ q₂) d = (matchesQuery q₁ d && matchesQuery q₂ d) := by
  simp [matchesQuery, List.all_append]

/-! ### The serialized car mapping has no identifier fields -/

theorem carToDoc_no_oid (c : Car) : lookupKey (carToDoc c) "_id" = none := by
  simp [carToDoc, lookupKey_append, lookupKey_optField, lookupKey]

theorem carToDoc_no_id (c : Car) : lookupKey (carToDoc c) "id" = none := by
  simp [carToDoc, lookupKey_append, lookupKey_optField, lookupKey]

/-! ### Normalization lemmas -/

/-- What `idReplace` does to any raw document carrying a store-assigned
ObjectId `_id` and no prior `id` field: pop `_id`, append `id` bound to
the identifier's string form. -/
theorem idReplace_spec (d : Doc) (n : Nat)
    (h₁ : lookupKey d "_id" = some (.vOid n)) (h₂ : lookupKey d "id" = none) :
    idReplace d = popKey d "_id" ++ [("id", .vStr (oidString n))] := by
  have habs : lookupKey (popKey d "_id") "id" = none := by
    rw [lookupKey_popKey_ne d (by decide)]
    exact h₂
  unfold idReplace
  rw [h₁]
  simp only [truthy, if_true, idStr]
  exact setKey_of_absent habs _

/-! ### The identifier rendering is injective -/

/-- Decimal value of a digit string, used only to invert `natChars`. -/
def charsVal (l : List Char) : Nat :=
  l.foldl (fun acc c => 10 * acc + digitVal c) 0

theorem digitVal_digitChar {n : Nat} (h : n < 10) : digitVal (digitChar n) = n := by
  interval_cases n <;> rfl

theorem charsVal_natChars (n : Nat) : charsVal (natChars n) = n := by
  induction n using Nat.strong_induction_on with
  | _ n ih =>
    rw [natChars]
    split
    · rename_i h
      simpa [charsVal] using digitVal_digitChar h
    · rename_i h
      have hlt : n / 10 < n := Nat.div_lt_self (by omega) (by omega)
      have hmod : n % 10 < 10 := Nat.mod_lt _ (by omega)
      calc charsVal (natChars (n / 10) ++ [digitChar (n % 10)])
          = 10 * charsVal (natChars (n / 10)) + digitVal (digitChar (n % 10)) := by
            simp [charsVal, List.foldl_append]
        _ = 10 * (n / 10) + n % 10 := by rw [ih _ hlt, digitVal_digitChar hmod]
        _ = n := by omega

theorem oidString_injective {m n : Nat} (h : oidString m = oidString n) : m = n := by
  have hchars : natChars m = natChars n := congrArg String.data h
  have := congrArg charsVal hchars
  rwa [charsVal_natChars, charsVal_natChars] at this

/-! ### The regex filter on metacharacter-free patterns -/

theorem patMatch_literal (p : List Char) (hp : ∀ c ∈ p, regexLiteralChar c = true) :
    ∀ s : List Char, (patMatch p s = true ↔ p.map Char.toLower = s.map Char.toLower) := by
  induction p with
  | nil => intro s; cases s <;> simp [patMatch]
  | cons a ps ih =>
      intro s
      have ha : a ≠ '.' := by
        have := hp a (List.mem_cons_self a ps)
        simp only [regexLiteralChar, List.mem_cons] at this
        intro hcon
        subst hcon
        simp at this
      have ih' := ih fun c hc => hp c (List.mem_cons_of_mem a hc)
      cases s with
      | nil => simp [patMatch]
      | cons b bs =>
          simp [patMatch, if_neg ha, ih' bs]

/-! ### The price entry of the query built by list_cars -/

theorem lookupKey_buildCarQuery_price (mk mo : Option String) (olo ohi : Option ℚ) :
    lookupKey (buildCarQuery mk mo olo ohi) "price" =
      if olo.isSome || ohi.isSome then some (.range olo ohi) else none := by
  have hmk : lookupKey (match mk with
      | some m => if m = "" then [] else [("make", Constraint.regexCI m)]
      | none => []) "price" = none := by
    rcases mk with _ | m
    · rfl
    · by_cases h : m = "" <;> simp [h, lookupKey]
  have hmo : lookupKey (match mo with
      | some m => if m = "" then [] else [("model", Constraint.regexCI m)]
      | none => []) "price" = none := by
    rcases mo with _ | m
    · rfl
    · by_cases h : m = "" <;> simp [h, lookupKey]
  unfold buildCarQuery
  rw [lookupKey_append, lookupKey_append, hmk, hmo]
  by_cases h : olo.isSome || ohi.isSome <;> simp [h, lookupKey]

/-! ### Claims -/

/-- C5: `get_documents` returns at most `limit` records and `limit = 0`
returns an empty sequence; an omitted `limit` is 20 for the car listing
and 50 for the dealer listing; the handlers pass `limit` through with no
upper bound (the result length is exactly `min limit` the number of
matching documents). -/
theorem limit_cap_and_defaults :
    (∀ (kind : String) (qry : Query) (lim : Nat) (st : Store) (docs : List Doc),
        get_documents kind qry lim st = .ok docs →
        docs.length ≤ lim ∧ (lim = 0 → docs = []) ∧
        docs.length = min lim ((st.colls kind).filter fun d => matchesQuery qry d).length)
    ∧ (∀ mk mo lo hi st, list_cars mk mo lo hi none st = list_cars mk mo lo hi (some 20) st)
    ∧ (∀ st, list_dealers none st = list_dealers (some 50) st) := by
  refine ⟨?_, fun _ _ _ _ _ => rfl, fun _ => rfl⟩
  intro kind qry lim st docs h
  unfold get_documents at h
  cases hf : st.failure with
  | some m => rw [hf] at h; simp at h
  | none =>
      rw [hf] at h
      simp only [Except.ok.injEq] at h
      subst h
      exact ⟨List.length_take_le lim _,
        fun h0 => by simp [h0],
        by simp [List.length_take]⟩

theorem limit_cap_and_defaults_witness :
    ([] : List Doc).length ≤ 0 ∧ ((0 : Nat) = 0 → ([] : List Doc) = []) ∧
    ([] : List Doc).length =
      min 0 (((Store.mk (fun _ => []) 0 none).colls "car").filter fun d =>
        matchesQuery [] d).length :=
  limit_cap_and_defaults.1 "car" [] 0 ⟨fun _ => [], 0, none⟩ [] rfl

/-- C6: a car-create body with `year = 1899` or `price = -1` fails the
schema validation, the request is answered with HTTP 422, and the store
is never touched (the returned store is the caller's, unchanged, so
`create_document` was not invoked). -/
theorem invalid_car_rejected_422 (b : CarInput) (st : Store)
    (h : b.year = some 1899 ∨ b.price = some (-1)) :
    parseCar b = none ∧
    create_car_endpoint b st = (.err 422 "Unprocessable Entity", st) := by
  have hnone : parseCar b = none := by
    unfold parseCar
    rcases h with h | h
    · rw [h]
      rcases b.make with _ | mk <;> rcases b.model with _ | md <;>
        rcases b.price with _ | p <;> simp
    · rw [h]
      rcases b.make with _ | mk <;> rcases b.model with _ | md <;>
        rcases b.year with _ | y <;> simp
  exact ⟨hnone, by simp [create_car_endpoint, hnone]⟩

theorem invalid_car_rejected_422_witness :
    parseCar ⟨some "Tesla", some "Model 3", some 1899, some 20000, none, none,
      none, none, none, none, none, none, none, none, none⟩ = none ∧
    create_car_endpoint ⟨some "Tesla", some "Model 3", some 1899, some 20000,
      none, none, none, none, none, none, none, none, none, none, none⟩
      ⟨fun _ => [], 0, none⟩ =
      (.err 422 "Unprocessable Entity", ⟨fun _ => [], 0, none⟩) :=
  invalid_car_rejected_422 _ _ (Or.inl rfl)

/-- C8: when the store raises during a create call, each of the three
create handlers answers HTTP 500 with the string form of the exception
as detail, and returns normally (the failure is caught at the handler
boundary, so it cannot crash the process). -/
theorem create_store_failure_500 (msg : String) (st : Store) (c : Car)
    (d : Dealer) (l : Lead) (h : st.failure = some msg) :
    create_car c st = (.err 500 msg, st) ∧
    create_dealer d st = (.err 500 msg, st) ∧
    create_lead l st = (.err 500 msg, st) := by
  refine ⟨?_, ?_, ?_⟩ <;>
    simp [create_car, create_dealer, create_lead, create_document, h]

theorem create_store_failure_500_witness :
    create_car ⟨"A", "B", 2000, 1, none, none, none, none, none, none, [], [],
        none, none, none⟩ ⟨fun _ => [], 0, some "boom"⟩ =
      (.err 500 "boom", ⟨fun _ => [], 0, some "boom"⟩) ∧
    create_dealer ⟨"D", "d@e.f", none, none, none, none⟩
        ⟨fun _ => [], 0, some "boom"⟩ =
      (.err 500 "boom", ⟨fun _ => [], 0, some "boom"⟩) ∧
    create_lead ⟨"1", "N", "n@e.f", none, none⟩ ⟨fun _ => [], 0, some "boom"⟩ =
      (.err 500 "boom", ⟨fun _ => [], 0, some "boom"⟩) :=
  create_store_failure_500 "boom" ⟨fun _ => [], 0, some "boom"⟩ _ _ _ rfl

/-- C10: an empty-string `make` or `model` query parameter builds the
same query as an absent one (Python truthiness drops it), while
`min_price = 0` or `max_price = 0` does add its price bound (`is not
None`), observably: with `min_price = 0` a document without a price
field no longer matches. -/
theorem empty_string_vs_zero_filters :
    (∀ mo lo hi, buildCarQuery (some "") mo lo hi = buildCarQuery none mo lo hi)
    ∧ (∀ mk lo hi, buildCarQuery mk (some "") lo hi = buildCarQuery mk none lo hi)
    ∧ (∀ mk mo hi, lookupKey (buildCarQuery mk mo (some 0) hi) "price" =
        some (.range (some 0) hi))
    ∧ (∀ mk mo lo, lookupKey (buildCarQuery mk mo lo (some 0)) "price" =
        some (.range lo (some 0)))
    ∧ (∀ d : Doc, lookupKey d "price" = none →
        matchesQuery (buildCarQuery none none (some 0) none) d = false) := by
  refine ⟨fun mo lo hi => by simp [buildCarQuery],
    fun mk lo hi => by simp [buildCarQuery],
    fun mk mo hi => by simp [lookupKey_buildCarQuery_price],
    fun mk mo lo => by simp [lookupKey_buildCarQuery_price],
    fun d h => by simp [buildCarQuery, matchesQuery, matchesConstraint, h]⟩

theorem empty_string_vs_zero_filters_witness :
    buildCarQuery (some "") none none none = buildCarQuery none none none none ∧
    matchesQuery (buildCarQuery none none (some 0) none)
      [("make", Value.vStr "Tesla")] = false :=
  ⟨empty_string_vs_zero_filters.1 none none none,
   empty_string_vs_zero_filters.2.2.2.2 [("make", Value.vStr "Tesla")] rfl⟩

/-- C3: the supplied price bounds combine into one inclusive range
constraint on `price` conjoined (logical AND) with the other field
filters, an absent bound imposing nothing; and with both bounds omitted
the built query has no `price` entry at all. -/
theorem price_range_filter_spec (mk mo : Option String) (olo ohi : Option ℚ)
    (d : Doc) (q : ℚ) (hq : lookupKey d "price" = some (.vNum q)) :
    (matchesQuery (buildCarQuery mk mo olo ohi) d = true ↔
      (matchesQuery (buildCarQuery mk mo none none) d = true
        ∧ (∀ lo, olo = some lo → lo ≤ q) ∧ (∀ hi, ohi = some hi → q ≤ hi)))
    ∧ lookupKey (buildCarQuery mk mo none none) "price" = none := by
  refine ⟨?_, by simp [lookupKey_buildCarQuery_price]⟩
  unfold buildCarQuery
  rcases olo with _ | lo <;> rcases ohi with _ | hi <;>
    simp [matchesQuery_append, matchesQuery, matchesConstraint, hq,
      Bool.and_eq_true, and_assoc]

theorem price_range_filter_spec_witness :
    (matchesQuery (buildCarQuery none none (some 20000) (some 30000))
        [("price", Value.vNum 25000)] = true ↔
      (matchesQuery (buildCarQuery none none none none)
          [("price", Value.vNum 25000)] = true
        ∧ (∀ lo, (some (20000 : ℚ)) = some lo → lo ≤ 25000)
        ∧ (∀ hi, (some (30000 : ℚ)) = some hi → (25000 : ℚ) ≤ hi)))
    ∧ lookupKey (buildCarQuery none none none none) "price" = none :=
  price_range_filter_spec none none (some 20000) (some 30000)
    [("price", Value.vNum 25000)] 25000 rfl

/-- C2 counterexample: the handler interpolates the raw parameter into
an anchored regex without escaping, so the parameter `"a.c"` matches a
stored `make = "abc"`, a value that differs from the parameter by more
than letter case (they are not case-insensitively equal). -/
theorem make_filter_regex_counterexample :
    matchesQuery (buildCarQuery (some "a.c") none none none)
      [("make", Value.vStr "abc")] = true
    ∧ specCiEq "a.c" "abc" = false := by
  exact ⟨by decide, by decide⟩

/-- C2 (amended): for every non-empty make (resp. model) parameter made
only of characters that are not regex metacharacters, the built filter
matches a stored string exactly when it equals the parameter ignoring
letter case as a full string; a parameter containing metacharacters is
instead interpreted as a regular expression (see the counterexample). -/
theorem make_model_filter_ci_exact (pat s : String) (d : Doc)
    (hne : pat ≠ "") (hlit : ∀ c ∈ pat.data, regexLiteralChar c = true) :
    (lookupKey d "make" = some (.vStr s) →
      (matchesQuery (buildCarQuery (some pat) none none none) d = true ↔
        specCiEq pat s = true))
    ∧ (lookupKey d "model" = some (.vStr s) →
      (matchesQuery (buildCarQuery none (some pat) none none) d = true ↔
        specCiEq pat s = true)) := by
  constructor <;> intro hl <;>
    simp [buildCarQuery, if_neg hne, matchesQuery, matchesConstraint, hl,
      specCiEq, patMatch_literal pat.data hlit s.data]

theorem make_model_filter_ci_exact_witness :
    (matchesQuery (buildCarQuery (some "tesla") none none none)
        [("make", Value.vStr "Tesla")] = true ↔
      specCiEq "tesla" "Tesla" = true)
    ∧ matchesQuery (buildCarQuery (some "Tesla") none none none)
        [("make", Value.vStr "Tesla Model")] = false :=
  ⟨(make_model_filter_ci_exact "tesla" "Tesla" [("make", Value.vStr "Tesla")]
      (by decide) (by decide)).1 rfl,
   by decide⟩

/-- C7 counterexample: a dealer body with an explicit `rating: null` is
accepted by validation (pydantic applies the bounds only to the float
branch of `Optional[float]`), and the accepted record's rating is null,
hence not a value within `[0, 5]` and not the default 4.5. -/
theorem dealer_rating_null_counterexample :
    parseDealer ⟨some "Ace Autos", some "ace@cars.com", none, none, none,
      some none⟩ = some ⟨"Ace Autos", "ace@cars.com", none, none, none, none⟩
    ∧ (⟨"Ace Autos", "ace@cars.com", none, none, none, none⟩ : Dealer).rating
        = none := ⟨rfl, rfl⟩

/-- C7 (amended): every dealer record accepted by validation has a
rating that is either null or a value within `[0, 5]`; a body that omits
the rating field gets the default 4.5, while a body with an explicit
null rating is accepted with a null rating. -/
theorem dealer_rating_bounds_and_default (b : DealerInput) (d : Dealer)
    (h : parseDealer b = some d) :
    (d.rating = none ∨ ∃ q, d.rating = some q ∧ 0 ≤ q ∧ q ≤ 5)
    ∧ (b.rating = none → d.rating = some ((9 : ℚ) / 2))
    ∧ (b.rating = some none → d.rating = none) := by
  obtain ⟨bn, be, bp, bc, bs, br⟩ := b
  rcases bn with _ | nm
  · simp [parseDealer] at h
  rcases be with _ | em
  · simp [parseDealer] at h
  rcases br with _ | or
  · simp only [parseDealer, Option.some.injEq] at h
    subst h
    exact ⟨Or.inr ⟨(9 : ℚ) / 2, rfl, by norm_num, by norm_num⟩,
      fun _ => rfl, fun hc => by simp at hc⟩
  rcases or with _ | q
  · simp only [parseDealer, Option.some.injEq] at h
    subst h
    exact ⟨Or.inl rfl, fun hc => by simp at hc, fun _ => rfl⟩
  · simp only [parseDealer] at h
    by_cases hq : (decide (0 ≤ q) && decide (q ≤ 5)) = true
    · rw [if_pos hq] at h
      simp only [Option.some.injEq] at h
      subst h
      simp only [Bool.and_eq_true, decide_eq_true_eq] at hq
      exact ⟨Or.inr ⟨q, rfl, hq.1, hq.2⟩,
        fun hc => by simp at hc, fun hc => by simp at hc⟩
    · rw [if_neg hq] at h
      simp at h

theorem dealer_rating_bounds_and_default_witness :
    ((⟨"Ace", "a@b.c", none, none, none, some ((9 : ℚ) / 2)⟩ : Dealer).rating = none
      ∨ ∃ q, (⟨"Ace", "a@b.c", none, none, none, some ((9 : ℚ) / 2)⟩ : Dealer).rating
          = some q ∧ 0 ≤ q ∧ q ≤ 5)
    ∧ ((none : Option (Option ℚ)) = none →
        (⟨"Ace", "a@b.c", none, none, none, some ((9 : ℚ) / 2)⟩ : Dealer).rating
          = some ((9 : ℚ) / 2))
    ∧ ((none : Option (Option ℚ)) = some none →
        (⟨"Ace", "a@b.c", none, none, none, some ((9 : ℚ) / 2)⟩ : Dealer).rating
          = none) :=
  dealer_rating_bounds_and_default
    ⟨some "Ace", some "a@b.c", none, none, none, none⟩ _ rfl

/-- C4 counterexample: the dealer listing's normalize replaces `_id` by
`id` but has no isoformat loop, so a raw dealer document carrying a
date-valued field is returned with the date unconverted — not in its
ISO-8601 textual form as the claim states for "cars and dealers alike". -/
theorem dealer_normalize_keeps_date_counterexample :
    list_dealers none
      ⟨fun k => if k = "dealer" then
          [[("_id", Value.vOid 7), ("name", Value.vStr "A"),
            ("joined", Value.vDate ⟨2024, 1, 2⟩)]]
        else [], 8, none⟩
      = Resp.ok [[("name", Value.vStr "A"), ("joined", Value.vDate ⟨2024, 1, 2⟩),
          ("id", Value.vStr (oidString 7))]]
    ∧ lookupKey [("name", Value.vStr "A"), ("joined", Value.vDate ⟨2024, 1, 2⟩),
        ("id", Value.vStr (oidString 7))] "joined" = some (Value.vDate ⟨2024, 1, 2⟩)
    ∧ Value.vDate ⟨2024, 1, 2⟩ ≠ Value.vStr (dateIso ⟨2024, 1, 2⟩) :=
  ⟨rfl, rfl, fun h => Value.noConfusion h⟩

/-- C4 (amended): on any raw document with a store-assigned ObjectId
`_id` and no prior `id` field, both normalizes replace `_id` by the
public string `id`; the car listing's normalize additionally converts
every date-valued field to its ISO-8601 text and leaves every other
field unchanged, while the dealer listing's normalize leaves all
non-identifier fields (dates included) unchanged. -/
theorem normalize_id_and_dates (d : Doc) (n : Nat)
    (h₁ : lookupKey d "_id" = some (.vOid n)) (h₂ : lookupKey d "id" = none) :
    (lookupKey (carNormalize d) "id" = some (.vStr (oidString n))
      ∧ lookupKey (carNormalize d) "_id" = none
      ∧ (∀ k v, k ≠ "_id" → k ≠ "id" → lookupKey d k = some v →
          lookupKey (carNormalize d) k = some (isoValue v)))
    ∧ (lookupKey (dealerNormalize d) "id" = some (.vStr (oidString n))
      ∧ lookupKey (dealerNormalize d) "_id" = none
      ∧ (∀ k v, k ≠ "_id" → k ≠ "id" → lookupKey d k = some v →
          lookupKey (dealerNormalize d) k = some v)) := by
  have hir : idReplace d = popKey d "_id" ++ [("id", .vStr (oidString n))] :=
    idReplace_spec d n h₁ h₂
  have hid : lookupKey (idReplace d) "id" = some (.vStr (oidString n)) := by
    rw [hir, lookupKey_append, lookupKey_popKey_ne d (by decide), h₂]
    simp [lookupKey]
  have hoid : lookupKey (idReplace d) "_id" = none := by
    rw [hir, lookupKey_append, lookupKey_popKey_self]
    simp [lookupKey]
  have hother : ∀ k, k ≠ "_id" → k ≠ "id" →
      lookupKey (idReplace d) k = lookupKey d k := by
    intro k hk1 hk2
    rw [hir, lookupKey_append, lookupKey_popKey_ne d hk1]
    simp [lookupKey, hk2]
  have hcar : carNormalize d = mapVals isoValue (idReplace d) := rfl
  refine ⟨⟨?_, ?_, ?_⟩,
    hid, hoid, fun k v hk1 hk2 hv => (hother k hk1 hk2).trans hv⟩
  · rw [hcar, lookupKey_mapVals, hid]
    rfl
  · rw [hcar, lookupKey_mapVals, hoid]
    rfl
  · intro k v hk1 hk2 hv
    rw [hcar, lookupKey_mapVals, hother k hk1 hk2, hv]
    rfl

theorem normalize_id_and_dates_witness :
    (lookupKey (carNormalize [("_id", Value.vOid 7), ("name", Value.vStr "A")])
        "id" = some (Value.vStr (oidString 7))
      ∧ lookupKey (carNormalize [("_id", Value.vOid 7), ("name", Value.vStr "A")])
          "_id" = none
      ∧ (∀ k v, k ≠ "_id" → k ≠ "id" →
          lookupKey [("_id", Value.vOid 7), ("name", Value.vStr "A")] k = some v →
          lookupKey (carNormalize [("_id", Value.vOid 7), ("name", Value.vStr "A")]) k
            = some (isoValue v)))
    ∧ (lookupKey (dealerNormalize [("_id", Value.vOid 7), ("name", Value.vStr "A")])
        "id" = some (Value.vStr (oidString 7))
      ∧ lookupKey (dealerNormalize [("_id", Value.vOid 7), ("name", Value.vStr "A")])
          "_id" = none
      ∧ (∀ k v, k ≠ "_id" → k ≠ "id" →
          lookupKey [("_id", Value.vOid 7), ("name", Value.vStr "A")] k = some v →
          lookupKey (dealerNormalize [("_id", Value.vOid 7), ("name", Value.vStr "A")]) k
            = some v)) :=
  normalize_id_and_dates [("_id", Value.vOid 7), ("name", Value.vStr "A")] 7 rfl rfl

/-- C1: creating a valid car and then listing with no filters and any
limit of at least one yields exactly one normalized record: its `id`
field is the identifier string the create call returned, every stored
field of the car appears with its value (dates in their normalized
ISO-8601 text), and no extra fields appear. -/
theorem create_then_list_car_roundtrip (c : Car) (st : Store) (N : Nat)
    (_hvalid : validateCar c = true) (hfail : st.failure = none)
    (hempty : st.colls "car" = []) (hN : 1 ≤ N) :
    ∃ rid st', create_car c st = (.ok rid, st')
      ∧ ∃ out : Doc, list_cars none none none none (some N) st' = .ok [out]
        ∧ lookupKey out "id" = some (.vStr rid)
        ∧ (∀ k v, lookupKey (carToDoc c) k = some v →
            lookupKey out k = some (isoValue v))
        ∧ (∀ k, k ≠ "id" → lookupKey (carToDoc c) k = none →
            lookupKey out k = none) := by
  obtain ⟨n, rfl⟩ : ∃ n, N = n + 1 := ⟨N - 1, by omega⟩
  refine ⟨oidString st.nextId,
    ⟨fun k => if k = "car" then st.colls k ++ [("_id", .vOid st.nextId) :: carToDoc c]
      else st.colls k, st.nextId + 1, none⟩, ?_, ?_⟩
  · simp [create_car, create_document, hfail]
  · have hdoc_id : lookupKey (("_id", Value.vOid st.nextId) :: carToDoc c) "_id"
        = some (.vOid st.nextId) := by simp [lookupKey]
    have hdoc_pub : lookupKey (("_id", Value.vOid st.nextId) :: carToDoc c) "id"
        = none := by
      rw [lookupKey, if_neg (by decide : ¬ ("id" = "_id"))]
      exact carToDoc_no_id c
    have hpop : popKey (("_id", Value.vOid st.nextId) :: carToDoc c) "_id"
        = carToDoc c := by
      have h1 : popKey (("_id", Value.vOid st.nextId) :: carToDoc c) "_id"
          = popKey (carToDoc c) "_id" := by simp [popKey]
      rw [h1, popKey_of_absent (carToDoc_no_oid c)]
    have hnorm : carNormalize (("_id", Value.vOid st.nextId) :: carToDoc c)
        = mapVals isoValue (carToDoc c) ++ [("id", .vStr (oidString st.nextId))] := by
      show mapVals isoValue (idReplace _) = _
      rw [idReplace_spec _ st.nextId hdoc_id hdoc_pub, hpop]
      simp [mapVals, isoValue]
    refine ⟨mapVals isoValue (carToDoc c) ++ [("id", .vStr (oidString st.nextId))],
      ?_, ?_, ?_, ?_⟩
    · simp [list_cars, get_documents, buildCarQuery, hempty, matchesQuery, hnorm]
    · rw [lookupKey_append, lookupKey_mapVals, carToDoc_no_id]
      simp [lookupKey]
    · intro k v hv
      rw [lookupKey_append, lookupKey_mapVals, hv]
      rfl
    · intro k hk hv
      rw [lookupKey_append, lookupKey_mapVals, hv]
      simp [lookupKey, hk]

theorem create_then_list_car_roundtrip_witness :
    ∃ rid st', create_car ⟨"Tesla", "Model 3", 2022, 32990, some 12000,
        some "Electric", some "Automatic", none, none, none, ["Autopilot"],
        ["https://img.example/p1"], none, some ⟨2024, 1, 2⟩, some "Used"⟩
        ⟨fun _ => [], 0, none⟩ = (.ok rid, st')
      ∧ ∃ out : Doc, list_cars none none none none (some 1) st' = .ok [out]
        ∧ lookupKey out "id" = some (.vStr rid)
        ∧ (∀ k v, lookupKey (carToDoc ⟨"Tesla", "Model 3", 2022, 32990, some 12000,
            some "Electric", some "Automatic", none, none, none, ["Autopilot"],
            ["https://img.example/p1"], none, some ⟨2024, 1, 2⟩, some "Used"⟩) k
              = some v → lookupKey out k = some (isoValue v))
        ∧ (∀ k, k ≠ "id" → lookupKey (carToDoc ⟨"Tesla", "Model 3", 2022, 32990,
            some 12000, some "Electric", some "Automatic", none, none, none,
            ["Autopilot"], ["https://img.example/p1"], none, some ⟨2024, 1, 2⟩,
            some "Used"⟩) k = none → lookupKey out k = none) :=
  create_then_list_car_roundtrip _ ⟨fun _ => [], 0, none⟩ 1 (by decide) rfl rfl
    (by decide)

/-- The identifiers a run of the seed loop returns: `k` fresh ids from
counter value `n` on. -/
def seedIds : Nat → Nat → List String
  | 0, _ => []
  | k + 1, n => oidString n :: seedIds k (n + 1)

/-- The documents a run of the seed loop appends to the car collection:
each sample car prefixed with its fresh store-assigned `_id`. -/
def seededDocs : List Car → Nat → List Doc
  | [], _ => []
  | c :: cs, n => (("_id", Value.vOid n) :: carToDoc c) :: seededDocs cs (n + 1)

theorem seedLoop_ok (cs : List Car) (st : Store) (hfail : st.failure = none) :
    seedLoop cs st = (.ok (seedIds cs.length st.nextId),
      ⟨fun k => if k = "car" then st.colls k ++ seededDocs cs st.nextId
        else st.colls k, st.nextId + cs.length, none⟩) := by
  induction cs generalizing st with
  | nil =>
      obtain ⟨co, ni, fa⟩ := st
      subst hfail
      simp only [seedLoop, seedIds, seededDocs, List.length_nil, Nat.add_zero]
      refine Prod.ext rfl ?_
      refine congrArg₂ (Store.mk · · none) ?_ rfl
      funext k
      by_cases h : k = "car" <;> simp [h]
  | cons c cs ih =>
      simp only [seedLoop, create_document, hfail]
      rw [ih ⟨fun k => if k = "car" then st.colls k ++ [("_id", .vOid st.nextId) :: carToDoc c]
        else st.colls k, st.nextId + 1, none⟩ rfl]
      simp only [List.length_cons, seedIds, seededDocs]
      refine Prod.ext rfl ?_
      refine congrArg₂ (Store.mk · · none) ?_ (by omega)
      funext k
      by_cases h : k = "car" <;> simp [h, List.append_assoc]

/-- C9: each seed call inserts exactly four car documents and returns
their four identifiers with `count = 4`; two successive calls append
eight documents carrying eight pairwise-distinct store identifiers, and
the eight returned identifier strings are pairwise distinct — the same
sample payloads are inserted again without deduplication. -/
theorem seed_cars_inserts_four_each (st : Store) (hfail : st.failure = none) :
    (seed_cars st).1 = .ok ([oidString st.nextId, oidString (st.nextId + 1),
        oidString (st.nextId + 2), oidString (st.nextId + 3)], 4)
    ∧ (seed_cars (seed_cars st).2).1
        = .ok ([oidString (st.nextId + 4), oidString (st.nextId + 5),
            oidString (st.nextId + 6), oidString (st.nextId + 7)], 4)
    ∧ ((seed_cars st).2).colls "car"
        = st.colls "car" ++ seededDocs sampleCars st.nextId
    ∧ ((seed_cars (seed_cars st).2).2).colls "car"
        = st.colls "car" ++ seededDocs sampleCars st.nextId
            ++ seededDocs sampleCars (st.nextId + 4)
    ∧ (seededDocs sampleCars st.nextId).length = 4
    ∧ (seededDocs sampleCars (st.nextId + 4)).length = 4
    ∧ (seededDocs sampleCars st.nextId ++ seededDocs sampleCars (st.nextId + 4)).map
        (fun d => lookupKey d "_id")
        = [some (.vOid st.nextId), some (.vOid (st.nextId + 1)),
           some (.vOid (st.nextId + 2)), some (.vOid (st.nextId + 3)),
           some (.vOid (st.nextId + 4)), some (.vOid (st.nextId + 5)),
           some (.vOid (st.nextId + 6)), some (.vOid (st.nextId + 7))]
    ∧ List.Nodup [some (Value.vOid st.nextId), some (.vOid (st.nextId + 1)),
        some (.vOid (st.nextId + 2)), some (.vOid (st.nextId + 3)),
        some (.vOid (st.nextId + 4)), some (.vOid (st.nextId + 5)),
        some (.vOid (st.nextId + 6)), some (.vOid (st.nextId + 7))]
    ∧ List.Nodup [oidString st.nextId, oidString (st.nextId + 1),
        oidString (st.nextId + 2), oidString (st.nextId + 3),
        oidString (st.nextId + 4), oidString (st.nextId + 5),
        oidString (st.nextId + 6), oidString (st.nextId + 7)] := by
  have h1 := seedLoop_ok sampleCars st hfail
  have h2 := seedLoop_ok sampleCars
    ⟨fun k => if k = "car" then st.colls k ++ seededDocs sampleCars st.nextId
      else st.colls k, st.nextId + sampleCars.length, none⟩ rfl
  refine ⟨?_, ?_, ?_, ?_, ?_, ?_, ?_, ?_, ?_⟩
  · simp only [seed_cars, h1]
    rfl
  · simp only [seed_cars, h1, h2]
    simp [seedIds, Nat.add_assoc, show sampleCars.length = 4 from rfl]
  · simp only [seed_cars, h1]
    simp
  · simp only [seed_cars, h1, h2]
    simp [List.append_assoc, Nat.add_assoc, show sampleCars.length = 4 from rfl]
  · simp [seededDocs, sampleCars]
  · simp [seededDocs, sampleCars]
  · simp [seededDocs, sampleCars, lookupKey, Nat.add_assoc]
  · simp [List.nodup_cons]
  · have hmap : [oidString st.nextId, oidString (st.nextId + 1),
        oidString (st.nextId + 2), oidString (st.nextId + 3),
        oidString (st.nextId + 4), oidString (st.nextId + 5),
        oidString (st.nextId + 6), oidString (st.nextId + 7)]
        = List.map oidString [st.nextId, st.nextId + 1, st.nextId + 2,
            st.nextId + 3, st.nextId + 4, st.nextId + 5, st.nextId + 6,
            st.nextId + 7] := rfl
    rw [hmap]
    refine List.Nodup.map (fun a b h => oidString_injective h) ?_
    simp [List.nodup_cons]

theorem seed_cars_inserts_four_each_witness :
    (seed_cars ⟨fun _ => [], 0, none⟩).1
      = .ok ([oidString 0, oidString (0 + 1), oidString (0 + 2),
          oidString (0 + 3)], 4)
    ∧ (seed_cars (seed_cars ⟨fun _ => [], 0, none⟩).2).1
        = .ok ([oidString (0 + 4), oidString (0 + 5), oidString (0 + 6),
            oidString (0 + 7)], 4)
    ∧ ((seed_cars ⟨fun _ => [], 0, none⟩).2).colls "car"
        = ([] : List Doc) ++ seededDocs sampleCars 0
    ∧ ((seed_cars (seed_cars ⟨fun _ => [], 0, none⟩).2).2).colls "car"
        = ([] : List Doc) ++ seededDocs sampleCars 0 ++ seededDocs sampleCars (0 + 4)
    ∧ (seededDocs sampleCars 0).length = 4
    ∧ (seededDocs sampleCars (0 + 4)).length = 4
    ∧ (seededDocs sampleCars 0 ++ seededDocs sampleCars (0 + 4)).map
        (fun d => lookupKey d "_id")
        = [some (.vOid 0), some (.vOid (0 + 1)), some (.vOid (0 + 2)),
           some (.vOid (0 + 3)), some (.vOid (0 + 4)), some (.vOid (0 + 5)),
           some (.vOid (0 + 6)), some (.vOid (0 + 7))]
    ∧ List.Nodup [some (Value.vOid 0), some (.vOid (0 + 1)), some (.vOid (0 + 2)),
        some (.vOid (0 + 3)), some (.vOid (0 + 4)), some (.vOid (0 + 5)),
        some (.vOid (0 + 6)), some (.vOid (0 + 7))]
    ∧ List.Nodup [oidString 0, oidString (0 + 1), oidString (0 + 2),
        oidString (0 + 3), oidString (0 + 4), oidString (0 + 5),
        oidString (0 + 6), oidString (0 + 7)] :=
  seed_cars_inserts_four_each ⟨fun _ => [], 0, none⟩ rfl

end AutoTrader
